import Mathlib

/-!
Verification of the Art-Net v4 DMX-over-IP implementation (`Artnet` class).

The development shallowly embeds the TypeScript source: JavaScript sparse
arrays indexed by universe become functions `Nat → Option _` / `Nat → Bool`,
channel buffers become `List (Option Nat)` (a `none` entry is a JS array
hole / `undefined` slot), timers become explicit per-universe flags
(`…Entry` = the array slot holds a timer object, i.e. is truthy;
`…Live` = the underlying timer is still scheduled, i.e. has not been
cleared), and every observable interaction with the UDP socket is recorded
as an explicit `Event`.  Machine integers are `Nat` with explicit
`&&& / >>> / <<< / %` operations mirroring the JS expressions.
-/

set_option maxRecDepth 100000

namespace ArtnetProto

/-- A DMX channel buffer entry: `some v` is a stored byte, `none` is a JS
array hole (reads as `undefined`). -/
abbrev Slot := Option Nat

/-- Read `buf[i]` with JS semantics: out-of-range reads and holes give
`undefined` (here `none`). -/
def readAt : List Slot → Nat → Option Nat
  | [], _ => none
  | x :: _, 0 => x
  | _ :: xs, i + 1 => readAt xs i

/-- JS array assignment `buf[i] = v`: overwrite in range, otherwise grow the
array, padding the gap with holes. -/
def writeAt : List Slot → Nat → Nat → List Slot
  | [], 0, v => [some v]
  | [], i + 1, v => none :: writeAt [] i v
  | _ :: xs, 0, v => some v :: xs
  | x :: xs, i + 1, v => x :: writeAt xs i v

/-- Everything the `Artnet` instance can observably do with its UDP socket. -/
inductive Event where
  /-- Event: `socket.send(frame, …, callback)` succeeded in being issued:
  one ArtDmx datagram handed to the transport. -/
  | sent (uni : Nat) (frame : List Nat) (cb : Option Nat)
  /-- Event: `socket.send` was reached after `socket.close()`: Node throws
  synchronously instead of transmitting. -/
  | sendThrow (uni : Nat)
  /-- Event: `set` invoked the completion handler immediately with a null error
  (nothing had changed, no transmission). -/
  | cbNull (cb : Nat)
deriving DecidableEq, Repr

/-- The mutable fields of the `Artnet` class.  Completion handlers are
identified by an opaque `Nat` tag (`Option Nat`: `none` = no callback). -/
structure State where
  /-- Field `this.host`. -/
  host : String
  /-- Field `this.port`. -/
  port : Nat
  /-- Field `this.refresh` (keep-alive interval in ms; configuration only). -/
  refreshMs : Nat
  /-- Field `this.sendAll`. -/
  sendAll : Bool
  /-- Flag: `this.socket` has been closed by `close()`. -/
  closed : Bool
  /-- Array `this.data[universe]`: per-universe channel buffer, `none` until first
  touch. -/
  data : Nat → Option (List Slot)
  /-- Array `this.dataChanged[universe]`: dirty length, `none` while the slot is
  still `undefined`. -/
  dataChanged : Nat → Option Nat
  /-- Array slot `this.interval[universe]` holds a (possibly already cleared) interval
  object, i.e. the slot is truthy. -/
  intervalEntry : Nat → Bool
  /-- the refresh interval for this universe is still scheduled (not yet
  cleared by `close`). -/
  intervalLive : Nat → Bool
  /-- Array slot `this.sendThrottle[universe]` holds a timeout object; the payload is
  the `(sendRefresh, sendCallback)` pair captured in its closure. -/
  throttleEntry : Nat → Option (Bool × Option Nat)
  /-- the throttle timeout for this universe is still scheduled. -/
  throttleLive : Nat → Bool
  /-- Array `this.sendDelayed[universe]`. -/
  sendDelayed : Nat → Bool

/-- A freshly constructed `Artnet` instance with the default configuration
(`host` 255.255.255.255, `port` 6454, `refresh` 4000, `sendAll` false). -/
def init : State where
  host := "255.255.255.255"
  port := 6454
  refreshMs := 4000
  sendAll := false
  closed := false
  data := fun _ => none
  dataChanged := fun _ => none
  intervalEntry := fun _ => false
  intervalLive := fun _ => false
  throttleEntry := fun _ => none
  throttleLive := fun _ => false
  sendDelayed := fun _ => false

/-- Model of `startRefresh(universe)`: store a fresh `setInterval` handle in
`this.interval[universe]`. -/
def startRefresh (s : State) (u : Nat) : State :=
  { s with
    intervalEntry := fun v => if v = u then true else s.intervalEntry v
    intervalLive := fun v => if v = u then true else s.intervalLive v }

/-- The `if (length % 2) length++;` step of `artdmxPackage`: DMX length is
rounded up to the next even number. -/
def evenLen (n : Nat) : Nat := if n % 2 = 1 then n + 1 else n

/-- Model of `artdmxPackage(universe, length)`: build the ArtDmx frame.  Also
allocates the universe's 512-slot zero buffer when absent (a state change),
so the updated state is returned alongside the frame bytes. -/
def artdmxPackage (s : State) (u : Nat) (length : Nat) : State × List Nat :=
  let length := evenLen length
  let hUni := (u >>> 8) &&& 0xff
  let lUni := u &&& 0xff
  let hLen := (length >>> 8) &&& 0xff
  let lLen := length &&& 0xff
  -- "Art-Net\0", OpCode 0x00,0x50, ProtVer 0x00,0x0E, Sequence/Physical
  -- 0x00,0x00, universe low/high, length high/low
  let header : List Nat :=
    [65, 114, 116, 45, 78, 101, 116, 0, 0, 80, 0, 14, 0, 0, lUni, hUni, hLen, lLen]
  let s :=
    if (s.data u).isSome then s
    else { s with
      data := fun v => if v = u then some (List.replicate 512 (some 0)) else s.data v }
  let buf := (s.data u).getD []
  let lengthBytes := hLen * 256 + lLen
  -- slice(0, lengthBytes) then `value ?? 0` (holes become 0)
  let cleanDmx := (buf.take lengthBytes).map (fun o => o.getD 0)
  (s, header ++ cleanDmx)

/-- The payload-length determination inside `send` (lines 115-125): 512 on
refresh, else the recorded dirty length, else 512 as a safety fallback when
the dirty slot is `undefined` or `0`. -/
def payloadLength (s : State) (u : Nat) (refresh : Bool) : Nat :=
  if refresh then 512
  else
    match s.dataChanged u with
    | some n => if 0 < n then n else 512
    | none => 512

/-- Model of `send(universe, refresh, callback)`.  Returns the updated instance state
together with the list of socket events this call produced. -/
def send (s : State) (u : Nat) (refresh : Bool) (cb : Option Nat) : State × List Event :=
  -- `if (this.sendAll) refresh = true;`
  let refresh := if s.sendAll then true else refresh
  -- `if (!this.interval[universe]) this.startRefresh(universe);`
  let s := if s.intervalEntry u then s else startRefresh s u
  -- `if (this.sendThrottle[universe]) { this.sendDelayed[universe] = true; return; }`
  match s.throttleEntry u with
  | some _ =>
      ({ s with sendDelayed := fun v => if v = u then true else s.sendDelayed v }, [])
  | none =>
      -- arm the 25 ms throttle timeout, capturing this call's refresh flag
      -- and callback in its closure
      let s := { s with
        throttleEntry := fun v => if v = u then some (refresh, cb) else s.throttleEntry v
        throttleLive := fun v => if v = u then true else s.throttleLive v }
      let length := payloadLength s u refresh
      let p := artdmxPackage s u length
      let s := { p.1 with
        dataChanged := fun v => if v = u then some 0 else p.1.dataChanged v }
      -- `this.socket.send(buf, …)`: throws if the socket was closed
      -- (either way the state mutations above have already happened)
      (s, if s.closed then [Event.sendThrow u] else [Event.sent u p.2 cb])

/-- The update loop of `set` over an array of values (lines 209-219):
`index = channel + i - 1`; a slot is written, and the dirty length raised to
`index + 1`, only when the incoming value differs from the stored one. -/
def setLoop (buf : List Slot) (dc : Nat) (ch : Nat) (i : Nat) : List Nat → List Slot × Nat
  | [] => (buf, dc)
  | v :: rest =>
      let index := ch + i - 1
      if readAt buf index = some v then setLoop buf dc ch (i + 1) rest
      else setLoop (writeAt buf index v) (if index + 1 > dc then index + 1 else dc) ch (i + 1) rest

/-- Model of `set(universe, channel, values, callback)` (the fully explicit call
shape, array branch; a single value behaves as the one-element array). -/
def set (s : State) (u channel : Nat) (values : List Nat) (cb : Option Nat) :
    State × List Event :=
  -- `if (!this.data[universe]) this.data[universe] = Array(512).fill(0);`
  -- (the freshly allocated zero buffer is read and then overwritten below
  -- with the loop's result, so the allocation is folded into the `getD`
  -- default)
  let buf := (s.data u).getD (List.replicate 512 (some 0))
  -- `this.dataChanged[universe] = this.dataChanged[universe] || 0;`
  let dc0 := (s.dataChanged u).getD 0
  let r := setLoop buf dc0 channel 0 values
  let s := { s with
    data := fun v => if v = u then some r.1 else s.data v
    dataChanged := fun v => if v = u then some r.2 else s.dataChanged v }
  -- `if (this.dataChanged[universe]) this.send(universe, false, callback);
  --  else if (typeof callback === "function") callback(null, undefined);`
  if r.2 ≠ 0 then send s u false cb
  else
    match cb with
    | some c => (s, [Event.cbNull c])
    | none => (s, [])

/-- The 25 ms throttle timeout for `universe` fires: clear the slot and, if a
send was coalesced during the window, replay one send with the refresh
flag / callback captured when the window was opened. -/
def throttleFire (s : State) (u : Nat) : State × List Event :=
  let captured := (s.throttleEntry u).getD (false, none)
  let s := { s with
    throttleEntry := fun v => if v = u then none else s.throttleEntry v
    throttleLive := fun v => if v = u then false else s.throttleLive v }
  if s.sendDelayed u then
    let s := { s with sendDelayed := fun v => if v = u then false else s.sendDelayed v }
    send s u captured.1 captured.2
  else (s, [])

/-- One tick of the keep-alive interval: `this.send(universe, 512)` — the
numeric argument is truthy and not a function, so it acts as
`refresh = true` with no callback. -/
def refreshTick (s : State) (u : Nat) : State × List Event :=
  send s u true none

/-- Model of `close()`: clear every stored interval and timeout (the array slots keep
their truthy handles), then close the socket. -/
def close (s : State) : State :=
  { s with
    intervalLive := fun _ => false
    throttleLive := fun _ => false
    closed := true }

/-- Model of `setHost(host)`. -/
def setHost (s : State) (host : String) : State := { s with host := host }

/-- Model of `setPort(port)`: throws (the `some` error message) while the host is the
global broadcast address, leaving the instance untouched; otherwise stores
the port. -/
def setPort (s : State) (port : Nat) : State × Option String :=
  if s.host = "255.255.255.255" then
    (s, some "Cannot change port when using broadcast address 255.255.255.255")
  else ({ s with port := port }, none)

/-- Model of `createArtPollPacket()`: the constant ArtPoll frame exactly as the code
builds it — note bytes 8-11 are `0x20,0x00,0x14,0x00`. -/
def createArtPollPacket : List Nat :=
  [0x41, 0x72, 0x74, 0x2d, 0x4e, 0x65, 0x74, 0x00, 0x20, 0x00, 0x14, 0x00, 0x00, 0x00]

/-- Node's `buffer.toString("ascii")` masks each byte to 7 bits. -/
def asciiChar (b : Nat) : Char := Char.ofNat (b % 128)

/-- Check that `rest` contains no newline character (JS `.` does not match `\n`). -/
def noNewline (cs : List Char) : Bool := cs.all (fun d => !(d == Char.ofNat 10))

/-- Model of `replace(/\0.*$/, "")`: cut at the leftmost NUL whose entire suffix is
newline-free (the regex must reach the end of the string). -/
def stripNul : List Char → List Char
  | [] => []
  | c :: rest =>
      if c == Char.ofNat 0 && noNewline rest then [] else c :: stripNul rest

/-- JS `String.prototype.trim` whitespace, restricted to the 7-bit range the
`ascii` decoding can produce: tab through carriage return, and space. -/
def isWsChar (c : Char) : Bool := c.toNat == 32 || (9 ≤ c.toNat && c.toNat ≤ 13)

/-- Model of `trim()` on a character list: strip whitespace from both ends. -/
def trimChars (cs : List Char) : List Char :=
  ((cs.dropWhile isWsChar).reverse.dropWhile isWsChar).reverse

/-- The `getString(start, len)` helper of `parseArtPollReply`:
`subarray(start, min(start+len, msg.length)).toString("ascii")`, cut at the
first terminating NUL, then trimmed. -/
def getString (msg : List Nat) (start len : Nat) : String :=
  String.mk (trimChars (stripNul (((msg.drop start).take len).map asciiChar)))

/-- Value `net` in `parseArtPollReply`: byte 18, low 7 bits, 0 when the datagram is
too short. -/
def replyNet (msg : List Nat) : Nat :=
  if 18 < msg.length then msg.getD 18 0 &&& 0x7f else 0

/-- Value `sub` in `parseArtPollReply`: byte 19, low nibble, 0 when the datagram is
too short. -/
def replySub (msg : List Nat) : Nat :=
  if 19 < msg.length then msg.getD 19 0 &&& 0x0f else 0

/-- Composition `compose(nibble) = (net << 8) | (sub << 4) | (nibble & 0x0f)`. -/
def composeUniverse (msg : List Nat) (nib : Nat) : Nat :=
  replyNet msg <<< 8 ||| replySub msg <<< 4 ||| (nib &&& 0x0f)

/-- Value `swInBytes`: bytes 186-189 when the datagram reaches 190 bytes, else
empty. -/
def swInBytes (msg : List Nat) : List Nat :=
  if 190 ≤ msg.length then (msg.drop 186).take 4 else []

/-- Value `swOutBytes`: bytes 190-193 when the datagram reaches 194 bytes, else
empty. -/
def swOutBytes (msg : List Nat) : List Nat :=
  if 194 ≤ msg.length then (msg.drop 190).take 4 else []

/-- The decoded fields of an ArtPollReply. -/
structure NodeInfo where
  shortName : String
  longName : String
  nodeIp : String
  portCount : Nat
  /-- the legacy single `universe` field (`universe` is a Lean keyword, so
  the field is named `uni` here) -/
  uni : Nat
  universesIn : List Nat
  universesOut : List Nat
deriving DecidableEq, Repr

/-- Model of `parseArtPollReply(msg)`: total field extraction with per-field length
guards. -/
def parseArtPollReply (msg : List Nat) : NodeInfo :=
  let len := msg.length
  let nodeIp :=
    if 14 ≤ len then
      toString (msg.getD 10 0) ++ "." ++ toString (msg.getD 11 0) ++ "." ++
        toString (msg.getD 12 0) ++ "." ++ toString (msg.getD 13 0)
    else "0.0.0.0"
  let portCount := if 173 < len then (msg.getD 172 0) <<< 8 ||| msg.getD 173 0 else 0
  let universesIn := (swInBytes msg).map (fun b => composeUniverse msg (b &&& 0x0f))
  let universesOut := (swOutBytes msg).map (fun b => composeUniverse msg (b &&& 0x0f))
  -- `universesIn[0] ?? compose(msg.length > 186 ? msg[186] & 0x0f : 0)`
  let uni :=
    (universesIn.head?).getD (composeUniverse msg (if 186 < len then msg.getD 186 0 &&& 0x0f else 0))
  { shortName := getString msg 26 18
    longName := getString msg 44 64
    nodeIp := nodeIp
    portCount := portCount
    uni := uni
    universesIn := universesIn
    universesOut := universesOut }

/-- An entry of `this.discoveredNodes`. -/
structure DiscoveredNode where
  ip : String
  port : Nat
  info : NodeInfo
deriving DecidableEq, Repr

/-- The signature / opcode validation of the discovery `message` handler:
bytes 0-7 spell `"Art-Net\0"` and bytes 8-9 are `0x00, 0x21`. -/
def isArtPollReplyMsg (msg : List Nat) : Bool :=
  msg.getD 0 0 == 0x41 && msg.getD 1 0 == 0x72 && msg.getD 2 0 == 0x74 &&
  msg.getD 3 0 == 0x2d && msg.getD 4 0 == 0x4e && msg.getD 5 0 == 0x65 &&
  msg.getD 6 0 == 0x74 && msg.getD 7 0 == 0x00 &&
  msg.getD 8 0 == 0x00 && msg.getD 9 0 == 0x21

/-- One inbound datagram during discovery: ignore anything shorter than 12
bytes or failing the signature / opcode check; otherwise append the decoded
node unless an entry with the same source IP already exists. -/
def handleMessage (nodes : List DiscoveredNode) (msg : List Nat) (ip : String) (port : Nat) :
    List DiscoveredNode :=
  if msg.length < 12 then nodes
  else if ¬ isArtPollReplyMsg msg then nodes
  else if nodes.any (fun n => n.ip == ip) then nodes
  else nodes ++ [{ ip := ip, port := port, info := parseArtPollReply msg }]

/-- A whole discovery session: the collection starts empty and each inbound
datagram `(msg, ip, port)` is folded through the message handler. -/
def runSession (dgrams : List (List Nat × String × Nat)) : List DiscoveredNode :=
  dgrams.foldl (fun ns d => handleMessage ns d.1 d.2.1 d.2.2) []

/-- A burst of `send` requests for one universe, collecting all socket
events. -/
def runSends (s : State) (u : Nat) : List (Bool × Option Nat) → State × List Event
  | [] => (s, [])
  | p :: rest =>
      let r := send s u p.1 p.2
      let r2 := runSends r.1 u rest
      (r2.1, r.2 ++ r2.2)

/-- The state of a universe's debounce machinery with the window torn down:
throttle slot emptied and the delayed flag lowered. -/
def clearWindow (s : State) (u : Nat) : State :=
  { s with
    throttleEntry := fun v => if v = u then none else s.throttleEntry v
    throttleLive := fun v => if v = u then false else s.throttleLive v
    sendDelayed := fun v => if v = u then false else s.sendDelayed v }

/-- The per-value upper bound `index + 1` over the values of a `set` call
that actually differ from what `buf` stores: 0 when nothing differs,
otherwise the highest changed index + 1.  All comparisons are against the
original buffer; `setLoop` visits strictly increasing indices (for
`ch ≥ 1`), so this matches its evolving comparisons. -/
def changedBound (buf : List Slot) (ch : Nat) : Nat → List Nat → Nat
  | _, [] => 0
  | i, v :: rest =>
      let index := ch + i - 1
      if readAt buf index = some v then changedBound buf ch (i + 1) rest
      else max (index + 1) (changedBound buf ch (i + 1) rest)

/-- A synthetic 190-byte ArtPollReply: valid signature and opcode,
NetSwitch byte 2, SubSwitch byte 5, SwIn block `[1, 0, 0, 0]` (the spec's
worked example). -/
def pollReplySample : List Nat :=
  [65, 114, 116, 45, 78, 101, 116, 0, 0, 33] ++ List.replicate 8 0 ++ [2, 5] ++
    List.replicate 166 0 ++ [1, 0, 0, 0]

/-- A 20-byte ArtPollReply prefix: valid signature and opcode, NetSwitch
byte 2 and SubSwitch byte 5, but too short to carry any SwIn block. -/
def shortReplySample : List Nat :=
  [65, 114, 116, 45, 78, 101, 116, 0, 0, 33, 10, 0, 0, 1, 0, 0, 0, 0, 2, 5]

/-!  ## General helper lemmas  -/

theorem and_255 (n : Nat) : n &&& 255 = n % 256 := Nat.and_pow_two_sub_one_eq_mod n 8

theorem and_127 (n : Nat) : n &&& 127 = n % 128 := Nat.and_pow_two_sub_one_eq_mod n 7

theorem and_15 (n : Nat) : n &&& 15 = n % 16 := Nat.and_pow_two_sub_one_eq_mod n 4

theorem shiftLeft_lor_eq_add (a b k : Nat) (hb : b < 2 ^ k) :
    a <<< k ||| b = a * 2 ^ k + b := by
  apply Nat.eq_of_testBit_eq
  intro j
  rw [Nat.testBit_lor, Nat.testBit_shiftLeft, Nat.mul_comm,
    Nat.testBit_mul_pow_two_add a hb j]
  by_cases h : j < k
  · simp [h, Nat.not_le.mpr h]
  · have hbj : b.testBit j = false :=
      Nat.testBit_lt_two_pow
        (lt_of_lt_of_le hb (Nat.pow_le_pow_right (by norm_num) (Nat.not_lt.mp h)))
    simp [h, Nat.not_lt.mp h, hbj]

theorem replyNet_lt (msg : List Nat) : replyNet msg < 128 := by
  unfold replyNet
  split
  · rw [and_127]; exact Nat.mod_lt _ (by norm_num)
  · norm_num

theorem replySub_lt (msg : List Nat) : replySub msg < 16 := by
  unfold replySub
  split
  · rw [and_15]; exact Nat.mod_lt _ (by norm_num)
  · norm_num

theorem composeUniverse_eq (msg : List Nat) (nib : Nat) :
    composeUniverse msg nib = replyNet msg * 256 + replySub msg * 16 + nib % 16 := by
  have hsub := replySub_lt msg
  unfold composeUniverse
  rw [and_15]
  have h1 : replyNet msg <<< 8 ||| replySub msg <<< 4 =
      replyNet msg * 256 + replySub msg * 16 := by
    have hlt : replySub msg <<< 4 < 2 ^ 8 := by rw [Nat.shiftLeft_eq]; omega
    have := shiftLeft_lor_eq_add (replyNet msg) (replySub msg <<< 4) 8 hlt
    rw [this, Nat.shiftLeft_eq]
    norm_num
  rw [h1]
  have h2 : replyNet msg * 256 + replySub msg * 16 =
      (replyNet msg * 16 + replySub msg) <<< 4 := by
    rw [Nat.shiftLeft_eq]; ring
  rw [h2, shiftLeft_lor_eq_add _ _ 4 (by omega : nib % 16 < 2 ^ 4), Nat.shiftLeft_eq]

/-!  ## C1: encoded ArtPoll bytes  -/

/-- C1: the claim asserts the encoded ArtPoll packet is the 8-byte
signature, OpCode `0x2000` emitted low-byte first (`0x00, 0x20`), the
protocol version 14 emitted high-byte first (`0x00, 0x0E`), then TalkToMe
`0x00` and Priority `0x00`.  The code instead emits `0x20, 0x00` (high-byte
first) for the OpCode and the bytes `0x14, 0x00` where the protocol version
should appear, so the produced packet differs from the claimed one at
bytes 8-11. -/
theorem C1_artpoll_bytes :
    createArtPollPacket =
      [65, 114, 116, 45, 78, 101, 116, 0] ++ [0x20, 0x00] ++ [0x14, 0x00] ++ [0x00, 0x00] ∧
    createArtPollPacket ≠
      [65, 114, 116, 45, 78, 101, 116, 0] ++ [0x00, 0x20] ++ [0x00, 0x0E] ++ [0x00, 0x00] := by
  decide

/-!  ## C10: totality and length guards of parseArtPollReply  -/

/-- C10: `parseArtPollReply` is a total function on arbitrary byte lists;
whenever the datagram is too short to contain a field the field falls back
to its default — nodeIp `"0.0.0.0"`, a zero universe (NetSwitch, SubSwitch
and the port nibble all default to 0), portCount 0, empty universe lists,
and empty name strings — and the empty datagram decodes to the all-default
record. -/
theorem C10_parse_total_defaults (msg : List Nat) :
    (msg.length < 14 → (parseArtPollReply msg).nodeIp = "0.0.0.0") ∧
    (msg.length ≤ 18 → (parseArtPollReply msg).uni = 0) ∧
    (msg.length ≤ 173 → (parseArtPollReply msg).portCount = 0) ∧
    (msg.length < 190 → (parseArtPollReply msg).universesIn = []) ∧
    (msg.length < 194 → (parseArtPollReply msg).universesOut = []) ∧
    (msg.length ≤ 26 → (parseArtPollReply msg).shortName = "") ∧
    (msg.length ≤ 44 → (parseArtPollReply msg).longName = "") ∧
    parseArtPollReply [] =
      { shortName := "", longName := "", nodeIp := "0.0.0.0", portCount := 0, uni := 0,
        universesIn := [], universesOut := [] } := by
  refine ⟨?_, ?_, ?_, ?_, ?_, ?_, ?_, by decide⟩
  · intro h
    simp only [parseArtPollReply]
    rw [if_neg (by omega)]
  · intro h
    have h190 : ¬ 190 ≤ msg.length := by omega
    have h186 : ¬ 186 < msg.length := by omega
    have h18 : ¬ 18 < msg.length := by omega
    have h19 : ¬ 19 < msg.length := by omega
    simp only [parseArtPollReply, swInBytes, replyNet, replySub, composeUniverse,
      if_neg h190, if_neg h186, if_neg h18, if_neg h19]
    decide
  · intro h
    simp only [parseArtPollReply]
    rw [if_neg (by omega)]
  · intro h
    simp only [parseArtPollReply, swInBytes, if_neg (by omega : ¬ 190 ≤ msg.length)]
    rfl
  · intro h
    simp only [parseArtPollReply, swOutBytes, if_neg (by omega : ¬ 194 ≤ msg.length)]
    rfl
  · intro h
    simp only [parseArtPollReply, getString]
    rw [List.drop_eq_nil_of_le (by omega)]
    decide
  · intro h
    simp only [parseArtPollReply, getString]
    rw [List.drop_eq_nil_of_le (by omega)]
    decide

/-- Witness for C10 at the empty datagram. -/
theorem C10_parse_total_defaults_witness :
    ([] : List Nat).length < 14 ∧ (parseArtPollReply []).nodeIp = "0.0.0.0" :=
  ⟨by decide, (C10_parse_total_defaults []).1 (by decide)⟩

/-!  ## C7: universe composition in parseArtPollReply  -/

/-- C7 counterexample: a 20-byte reply with NetSwitch 2 and SubSwitch 5 has
an empty `universesIn` and is too short for byte 186, so the claim says the
legacy universe field is 0 — but the code composes the fallback from
nibble 0, giving `(2 <<< 8) ||| (5 <<< 4) = 592 ≠ 0`. -/
theorem C7_counterexample :
    (parseArtPollReply shortReplySample).universesIn = [] ∧
    shortReplySample.length = 20 ∧
    (parseArtPollReply shortReplySample).uni = 592 ∧
    (parseArtPollReply shortReplySample).uni ≠ 0 := by
  decide

/-- C7 (amended): per-port universes are composed as
`(NetSwitch <<< 8) ||| (SubSwitch <<< 4) ||| nibble`, which (the switch
fields being 7- and 4-bit) equals `NetSwitch * 256 + SubSwitch * 16 +
nibble`; the legacy `universe` field is the first entry of `universesIn`
when non-empty, the value composed from the low nibble of byte 186 when
`universesIn` is empty and the datagram is long enough, and otherwise the
value composed from nibble 0 — `(NetSwitch <<< 8) ||| (SubSwitch <<< 4)` —
rather than the claimed constant 0.  The spec's worked example
(NetSwitch 2, SubSwitch 5, SwIn[0] = 1) yields 593. -/
theorem C7_universe_composition (msg : List Nat) :
    (parseArtPollReply msg).universesIn =
      (swInBytes msg).map (fun b => composeUniverse msg (b &&& 0x0f)) ∧
    (parseArtPollReply msg).universesOut =
      (swOutBytes msg).map (fun b => composeUniverse msg (b &&& 0x0f)) ∧
    (∀ nib, composeUniverse msg nib =
      replyNet msg * 256 + replySub msg * 16 + nib % 16) ∧
    (∀ x, (parseArtPollReply msg).universesIn.head? = some x →
      (parseArtPollReply msg).uni = x) ∧
    ((parseArtPollReply msg).universesIn = [] → 186 < msg.length →
      (parseArtPollReply msg).uni = composeUniverse msg (msg.getD 186 0 &&& 0x0f)) ∧
    ((parseArtPollReply msg).universesIn = [] → msg.length ≤ 186 →
      (parseArtPollReply msg).uni = replyNet msg * 256 + replySub msg * 16) ∧
    (parseArtPollReply pollReplySample).uni = 593 := by
  refine ⟨rfl, rfl, composeUniverse_eq msg, ?_, ?_, ?_, by decide⟩
  · intro x hx
    simp only [parseArtPollReply] at hx ⊢
    rw [hx]
    rfl
  · intro h1 h2
    simp only [parseArtPollReply] at h1 ⊢
    rw [h1, if_pos h2]
    rfl
  · intro h1 h2
    simp only [parseArtPollReply] at h1 ⊢
    rw [h1, if_neg (by omega : ¬ 186 < msg.length)]
    simp only [List.head?_nil, Option.getD_none]
    rw [composeUniverse_eq]
    omega

/-- Witness for C7 at the spec's worked example. -/
theorem C7_universe_composition_witness :
    (parseArtPollReply pollReplySample).universesIn.head? = some 593 ∧
    (parseArtPollReply pollReplySample).uni = 593 :=
  ⟨by decide, (C7_universe_composition pollReplySample).2.2.2.1 593 (by decide)⟩

/-!  ## C6: ArtDmx frame layout  -/

/-- C6 counterexample: the claim promises the frame carries exactly
`evenLen length` buffer bytes for every length (missing entries read as 0),
but `slice` cannot read past the 512-slot buffer: for length 513 the rounded
length is 514 while the frame holds only `18 + 512 = 530` bytes, not
`18 + 514`. -/
theorem C6_counterexample :
    evenLen 513 = 514 ∧
    ((artdmxPackage init 0 513).2).length = 530 ∧
    ((artdmxPackage init 0 513).2).length ≠ 18 + 514 := by
  decide

/-- C6 (amended): for a universe whose buffer is absent or holds at least
512 slots, the ArtDmx frame is the 8-byte signature, OpCode bytes
`0x00, 0x50`, ProtVer bytes `0x00, 0x0E`, sequence and physical bytes
`0x00, 0x00`, the universe low byte then high byte, the length — rounded up
to the next even number — high byte then low byte, followed by the first
`min(evenLen, bufferLength)` entries of the channel buffer with missing
(null) entries read as 0; this is exactly `evenLen` bytes whenever
`evenLen ≤ 512`, i.e. the claim's payload holds for all lengths up to 512
but a larger length yields only the buffer's entries. -/
theorem C6_artdmx_frame (s : State) (u L : Nat) (hL : evenLen L < 65536)
    (hb : ∀ b, s.data u = some b → 512 ≤ b.length) :
    ∃ buf, ((artdmxPackage s u L).1).data u = some buf ∧ 512 ≤ buf.length ∧
      (s.data u = some buf ∨ (s.data u = none ∧ buf = List.replicate 512 (some 0))) ∧
      (artdmxPackage s u L).2 =
        [65, 114, 116, 45, 78, 101, 116, 0, 0, 80, 0, 14, 0, 0] ++
          [u % 256, u / 256 % 256] ++ [evenLen L / 256, evenLen L % 256] ++
          (buf.take (evenLen L)).map (fun o => o.getD 0) ∧
      evenLen L % 2 = 0 ∧ L ≤ evenLen L ∧ evenLen L ≤ L + 1 ∧
      (evenLen L ≤ 512 → ((buf.take (evenLen L)).map (fun o => o.getD 0)).length = evenLen L) := by
  have hdiv : evenLen L / 256 < 256 := by omega
  have hhi : (evenLen L >>> 8) &&& 255 = evenLen L / 256 := by
    rw [Nat.shiftRight_eq_div_pow, and_255, (by norm_num : (2 : Nat) ^ 8 = 256),
      Nat.mod_eq_of_lt hdiv]
  have huhi : (u >>> 8) &&& 255 = u / 256 % 256 := by
    rw [Nat.shiftRight_eq_div_pow, and_255, (by norm_num : (2 : Nat) ^ 8 = 256)]
  have hlb : evenLen L / 256 * 256 + evenLen L % 256 = evenLen L := by omega
  have heven : evenLen L % 2 = 0 := by unfold evenLen; split <;> omega
  have hle1 : L ≤ evenLen L := by unfold evenLen; split <;> omega
  have hle2 : evenLen L ≤ L + 1 := by unfold evenLen; split <;> omega
  cases hd : s.data u with
  | none =>
      refine ⟨List.replicate 512 (some 0), ?_, by simp, Or.inr ⟨rfl, rfl⟩, ?_, heven, hle1, hle2, ?_⟩
      · simp only [artdmxPackage, hd, Option.isSome_none, Bool.false_eq_true, if_false]
        simp
      · simp only [artdmxPackage, hd, Option.isSome_none, Bool.false_eq_true, if_false,
          huhi, and_255, hhi, hlb]
        simp [hlb]
      · intro hfit
        simp [List.length_take, hfit]
  | some b =>
      have hblen : 512 ≤ b.length := hb b hd
      refine ⟨b, ?_, hblen, Or.inl rfl, ?_, heven, hle1, hle2, ?_⟩
      · simp only [artdmxPackage, hd, Option.isSome_some, if_true]
      · simp only [artdmxPackage, hd, Option.isSome_some, if_true,
          huhi, and_255, hhi, hlb]
        simp [hlb, hd]
      · intro hfit
        simp [List.length_take]
        omega

/-- Witness for C6 at a fresh universe and the default full length 512. -/
theorem C6_artdmx_frame_witness :
    evenLen 512 < 65536 ∧
    (∃ buf, ((artdmxPackage init 3 512).1).data 3 = some buf ∧ 512 ≤ buf.length ∧
      (init.data 3 = some buf ∨ (init.data 3 = none ∧ buf = List.replicate 512 (some 0))) ∧
      (artdmxPackage init 3 512).2 =
        [65, 114, 116, 45, 78, 101, 116, 0, 0, 80, 0, 14, 0, 0] ++
          [3 % 256, 3 / 256 % 256] ++ [evenLen 512 / 256, evenLen 512 % 256] ++
          (buf.take (evenLen 512)).map (fun o => o.getD 0) ∧
      evenLen 512 % 2 = 0 ∧ 512 ≤ evenLen 512 ∧ evenLen 512 ≤ 512 + 1 ∧
      (evenLen 512 ≤ 512 →
        ((buf.take (evenLen 512)).map (fun o => o.getD 0)).length = evenLen 512)) :=
  ⟨by decide, C6_artdmx_frame init 3 512 (by decide) (fun b h => nomatch h)⟩

/-!  ## C8: setPort guard  -/

/-- C8: `setPort` throws exactly when the stored host is the global
broadcast address, and then leaves the stored port unchanged; whenever the
host is anything else — in particular after `setHost` to a non-broadcast
address — the same call succeeds and stores the new port. -/
theorem C8_setPort_guard (s : State) (p : Nat) (h : String) :
    ((setPort s p).2.isSome ↔ s.host = "255.255.255.255") ∧
    (s.host = "255.255.255.255" →
      setPort s p = (s, some "Cannot change port when using broadcast address 255.255.255.255") ∧
      (setPort s p).1.port = s.port) ∧
    (s.host ≠ "255.255.255.255" → setPort s p = ({ s with port := p }, none)) ∧
    (h ≠ "255.255.255.255" →
      setPort (setHost s h) p = ({ setHost s h with port := p }, none) ∧
      (setPort (setHost s h) p).1.port = p) := by
  refine ⟨?_, ?_, ?_, ?_⟩
  · unfold setPort
    split
    · simp [*]
    · simp [*]
  · intro hh
    have he : setPort s p =
        (s, some "Cannot change port when using broadcast address 255.255.255.255") := by
      unfold setPort
      rw [if_pos hh]
    exact ⟨he, by rw [he]⟩
  · intro hh
    unfold setPort
    rw [if_neg hh]
  · intro hh
    have he : setPort (setHost s h) p = ({ setHost s h with port := p }, none) := by
      unfold setPort setHost
      simp only [if_neg hh]
    exact ⟨he, by rw [he]⟩

/-- Witness for C8: the default instance (broadcast host) rejects the port
change and keeps port 6454; after `setHost` to the unicast `10.0.0.1` the
same change succeeds. -/
theorem C8_setPort_guard_witness :
    init.host = "255.255.255.255" ∧
    setPort init 9999 =
      (init, some "Cannot change port when using broadcast address 255.255.255.255") ∧
    (setPort init 9999).1.port = 6454 ∧
    ("10.0.0.1" : String) ≠ "255.255.255.255" ∧
    (setPort (setHost init "10.0.0.1") 9999).1.port = 9999 :=
  ⟨rfl, ((C8_setPort_guard init 9999 "10.0.0.1").2.1 rfl).1,
    ((C8_setPort_guard init 9999 "10.0.0.1").2.1 rfl).2, by decide,
    ((C8_setPort_guard init 9999 "10.0.0.1").2.2.2 (by decide)).2⟩

/-!  ## C9: discovery deduplication  -/

theorem handleMessage_pairwise (nodes : List DiscoveredNode) (msg : List Nat)
    (ip : String) (port : Nat) (hp : nodes.Pairwise (fun a b => a.ip ≠ b.ip)) :
    (handleMessage nodes msg ip port).Pairwise (fun a b => a.ip ≠ b.ip) := by
  unfold handleMessage
  split
  · exact hp
  split
  · exact hp
  split
  · exact hp
  next hany =>
    rw [List.pairwise_append]
    refine ⟨hp, by simp, ?_⟩
    intro a ha b hb
    simp only [List.mem_singleton] at hb
    subst hb
    intro hip
    exact hany (List.any_eq_true.mpr ⟨a, ha, by simp [hip]⟩)

theorem foldDiscovery_pairwise :
    ∀ (dgrams : List (List Nat × String × Nat)) (ns : List DiscoveredNode),
      ns.Pairwise (fun a b => a.ip ≠ b.ip) →
      (dgrams.foldl (fun ns d => handleMessage ns d.1 d.2.1 d.2.2) ns).Pairwise
        (fun a b => a.ip ≠ b.ip)
  | [], _, hp => hp
  | _ :: rest, _, hp =>
      foldDiscovery_pairwise rest _ (handleMessage_pairwise _ _ _ _ hp)

/-- C9: an inbound datagram shorter than 12 bytes, or failing the
signature / opcode check, leaves the collection unchanged; a valid reply
from a fresh source IP is appended as `{ip, port, info}`; a valid reply
from an already-collected IP is dropped, not merged; and consequently the
collection of any discovery session holds at most one entry per source
IP. -/
theorem C9_discovery_dedup (nodes : List DiscoveredNode) (msg : List Nat) (ip : String)
    (port : Nat) (dgrams : List (List Nat × String × Nat)) :
    (msg.length < 12 → handleMessage nodes msg ip port = nodes) ∧
    (isArtPollReplyMsg msg = false → handleMessage nodes msg ip port = nodes) ∧
    (12 ≤ msg.length → isArtPollReplyMsg msg = true → (∀ n ∈ nodes, n.ip ≠ ip) →
      handleMessage nodes msg ip port =
        nodes ++ [{ ip := ip, port := port, info := parseArtPollReply msg }]) ∧
    (isArtPollReplyMsg msg = true → (∃ n ∈ nodes, n.ip = ip) →
      handleMessage nodes msg ip port = nodes) ∧
    (runSession dgrams).Pairwise (fun a b => a.ip ≠ b.ip) := by
  refine ⟨?_, ?_, ?_, ?_, foldDiscovery_pairwise dgrams [] (by simp)⟩
  · intro h
    unfold handleMessage
    rw [if_pos h]
  · intro h
    unfold handleMessage
    split
    · rfl
    rw [if_pos (by simp [h])]
  · intro hlen hmsg hfresh
    have hany : nodes.any (fun n => n.ip == ip) = false := by
      rw [List.any_eq_false]
      intro n hn
      simp [hfresh n hn]
    unfold handleMessage
    rw [if_neg (by omega), if_neg (by simp [hmsg]), if_neg (by simp [hany])]
  · intro hmsg hex
    obtain ⟨n, hn, hip⟩ := hex
    have hany : nodes.any (fun n => n.ip == ip) = true :=
      List.any_eq_true.mpr ⟨n, hn, by simp [hip]⟩
    unfold handleMessage
    by_cases hl : msg.length < 12
    · rw [if_pos hl]
    · rw [if_neg hl, if_neg (by simp [hmsg]), if_pos hany]

/-- Witness for C9: a 3-byte datagram is discarded. -/
theorem C9_discovery_dedup_witness :
    ([1, 2, 3] : List Nat).length < 12 ∧ handleMessage [] [1, 2, 3] "a" 9 = [] :=
  ⟨by decide, (C9_discovery_dedup [] [1, 2, 3] "a" 9 []).1 (by decide)⟩

/-!  ## Scheduler helper lemmas  -/

theorem artdmxPackage_fst (s : State) (u L : Nat) :
    (artdmxPackage s u L).1 =
      if (s.data u).isSome then s
      else { s with
        data := fun v => if v = u then some (List.replicate 512 (some 0)) else s.data v } :=
  rfl

theorem artdmxPackage_closed (s : State) (u L : Nat) :
    ((artdmxPackage s u L).1).closed = s.closed := by
  rw [artdmxPackage_fst]; split <;> rfl

theorem artdmxPackage_throttleEntry (s : State) (u L : Nat) :
    ((artdmxPackage s u L).1).throttleEntry = s.throttleEntry := by
  rw [artdmxPackage_fst]; split <;> rfl

theorem artdmxPackage_throttleLive (s : State) (u L : Nat) :
    ((artdmxPackage s u L).1).throttleLive = s.throttleLive := by
  rw [artdmxPackage_fst]; split <;> rfl

theorem artdmxPackage_intervalEntry (s : State) (u L : Nat) :
    ((artdmxPackage s u L).1).intervalEntry = s.intervalEntry := by
  rw [artdmxPackage_fst]; split <;> rfl

theorem artdmxPackage_intervalLive (s : State) (u L : Nat) :
    ((artdmxPackage s u L).1).intervalLive = s.intervalLive := by
  rw [artdmxPackage_fst]; split <;> rfl

theorem artdmxPackage_sendDelayed (s : State) (u L : Nat) :
    ((artdmxPackage s u L).1).sendDelayed = s.sendDelayed := by
  rw [artdmxPackage_fst]; split <;> rfl

theorem artdmxPackage_dataChanged (s : State) (u L : Nat) :
    ((artdmxPackage s u L).1).dataChanged = s.dataChanged := by
  rw [artdmxPackage_fst]; split <;> rfl

theorem artdmxPackage_data_of_isSome (s : State) (u L : Nat) (h : (s.data u).isSome) :
    ((artdmxPackage s u L).1).data = s.data := by
  rw [artdmxPackage_fst, if_pos h]

theorem artdmxPackage_snd (s : State) (u L : Nat) :
    (artdmxPackage s u L).2 =
      [65, 114, 116, 45, 78, 101, 116, 0, 0, 80, 0, 14, 0, 0,
        u &&& 255, (u >>> 8) &&& 255, (evenLen L >>> 8) &&& 255, evenLen L &&& 255] ++
      (((s.data u).getD (List.replicate 512 (some 0))).take
          (((evenLen L >>> 8) &&& 255) * 256 + (evenLen L &&& 255))).map
        (fun o => o.getD 0) := by
  unfold artdmxPackage
  cases hd : s.data u
  · simp [hd]
  · simp [hd]

theorem lengthBytes_eq (L : Nat) (hL : evenLen L ≤ 512) :
    ((evenLen L >>> 8) &&& 255) * 256 + (evenLen L &&& 255) = evenLen L := by
  rw [Nat.shiftRight_eq_div_pow, and_255, and_255, (by norm_num : (2 : Nat) ^ 8 = 256)]
  omega

theorem artdmxPackage_length (s : State) (u L : Nat) (hL : evenLen L ≤ 512)
    (hb : ∀ b, s.data u = some b → 512 ≤ b.length) :
    ((artdmxPackage s u L).2).length = 18 + evenLen L := by
  rw [artdmxPackage_snd, lengthBytes_eq L hL]
  have h2 : 512 ≤ ((s.data u).getD (List.replicate 512 (some 0))).length := by
    cases hd : s.data u
    · simp
    · simpa using hb _ hd
  simp only [List.length_append, List.length_map, List.length_take]
  simp only [List.length_cons, List.length_nil]
  omega

theorem payloadLength_le (s : State) (u : Nat) (x : Bool)
    (hdc : (s.dataChanged u).getD 0 ≤ 512) : payloadLength s u x ≤ 512 := by
  unfold payloadLength
  split
  · omega
  · cases hd : s.dataChanged u
    · simp
    · simp only [hd]
      split
      · rw [hd] at hdc; simpa using hdc
      · omega

theorem payloadLength_pos (s : State) (u : Nat) (x : Bool) : 1 ≤ payloadLength s u x := by
  unfold payloadLength
  split
  · omega
  · cases hd : s.dataChanged u
    · simp
    · simp only [hd]
      split <;> omega

theorem evenLen_le_512 (n : Nat) (h : n ≤ 512) : evenLen n ≤ 512 := by
  unfold evenLen; split <;> omega

theorem evenLen_ge_two (n : Nat) (h : 1 ≤ n) : 2 ≤ evenLen n := by
  unfold evenLen; split <;> omega

theorem send_inWindow (s : State) (u : Nat) (r : Bool) (c : Option Nat)
    (t : Bool × Option Nat) (hInt : s.intervalEntry u = true)
    (hTh : s.throttleEntry u = some t) :
    send s u r c =
      ({ s with sendDelayed := fun v => if v = u then true else s.sendDelayed v }, []) := by
  unfold send
  rw [hInt]
  simp only [if_true, hTh]

theorem send_open_spec (s : State) (u : Nat) (r : Bool) (c : Option Nat)
    (hTh : s.throttleEntry u = none) :
    (send s u r c).1.throttleEntry u = some (if s.sendAll then true else r, c) ∧
    (send s u r c).1.intervalEntry u = true ∧
    (send s u r c).1.throttleLive u = true ∧
    (send s u r c).1.closed = s.closed ∧
    (send s u r c).1.dataChanged u = some 0 ∧
    (s.intervalEntry u = false → (send s u r c).1.intervalLive u = true) ∧
    (send s u r c).2 =
      (if s.closed then [Event.sendThrow u]
       else
        [Event.sent u
          (artdmxPackage
            { s with
              throttleEntry := fun v =>
                if v = u then some (if s.sendAll then true else r, c) else s.throttleEntry v
              throttleLive := fun v => if v = u then true else s.throttleLive v }
            u (payloadLength s u (if s.sendAll then true else r))).2 c]) := by
  cases hI : s.intervalEntry u
  · unfold send
    rw [hI]
    simp only [Bool.false_eq_true, if_false, startRefresh, hTh]
    refine ⟨?_, ?_, ?_, ?_, ?_, ?_, ?_⟩
    · simp [artdmxPackage_throttleEntry]
    · simp [artdmxPackage_intervalEntry]
    · simp [artdmxPackage_throttleLive]
    · simp [artdmxPackage_closed]
    · simp
    · intro _
      simp [artdmxPackage_intervalLive]
    · simp [artdmxPackage_closed, artdmxPackage_snd, payloadLength]
  · unfold send
    rw [hI]
    simp only [if_true, hTh]
    refine ⟨?_, ?_, ?_, ?_, ?_, ?_, ?_⟩
    · simp [artdmxPackage_throttleEntry]
    · simp [artdmxPackage_intervalEntry, hI]
    · simp [artdmxPackage_throttleLive]
    · simp [artdmxPackage_closed]
    · simp
    · intro hfalse
      simp at hfalse
    · simp [artdmxPackage_closed, artdmxPackage_snd, payloadLength]

theorem send_throttle_isSome (s : State) (u : Nat) (r : Bool) (c : Option Nat) :
    ((send s u r c).1.throttleEntry u).isSome = true := by
  cases hTh : s.throttleEntry u with
  | none => rw [(send_open_spec s u r c hTh).1]; rfl
  | some t =>
      unfold send
      cases hI : s.intervalEntry u <;> simp [hI, hTh, startRefresh]

theorem send_dataChanged_of_throttled (s : State) (u : Nat) (r : Bool) (c : Option Nat)
    (t : Bool × Option Nat) (hTh : s.throttleEntry u = some t) :
    (send s u r c).1.dataChanged = s.dataChanged := by
  unfold send
  cases hI : s.intervalEntry u <;> simp [hI, hTh, startRefresh]

theorem send_data_of_isSome (s : State) (u : Nat) (r : Bool) (c : Option Nat)
    (h : (s.data u).isSome = true) :
    (send s u r c).1.data = s.data := by
  cases hTh : s.throttleEntry u with
  | some t =>
      unfold send
      cases hI : s.intervalEntry u <;> simp [hI, hTh, startRefresh]
  | none =>
      unfold send
      cases hI : s.intervalEntry u <;>
        simp [hI, hTh, startRefresh, artdmxPackage_data_of_isSome, h]

theorem runSends_inWindow (u : Nat) (t : Bool × Option Nat) (L : List (Bool × Option Nat)) :
    ∀ (s : State), s.intervalEntry u = true → s.throttleEntry u = some t →
      (runSends s u L).2 = [] ∧
      (runSends s u L).1.throttleEntry = s.throttleEntry ∧
      (runSends s u L).1.intervalEntry = s.intervalEntry ∧
      (runSends s u L).1.closed = s.closed ∧
      (runSends s u L).1.sendAll = s.sendAll ∧
      (runSends s u L).1.sendDelayed u = (if L.isEmpty then s.sendDelayed u else true) := by
  induction L with
  | nil =>
      intro s hI hT
      simp [runSends]
  | cons p rest ih =>
      intro s hI hT
      have hstep : send s u p.1 p.2 =
          ({ s with sendDelayed := fun v => if v = u then true else s.sendDelayed v }, []) :=
        send_inWindow s u p.1 p.2 t hI hT
      have ih' := ih ({ s with sendDelayed := fun v => if v = u then true else s.sendDelayed v })
        hI hT
      unfold runSends
      rw [hstep]
      refine ⟨by simpa using ih'.1, ih'.2.1, ih'.2.2.1, ih'.2.2.2.1, ih'.2.2.2.2.1, ?_⟩
      rw [ih'.2.2.2.2.2]
      simp

theorem throttleFire_delayed (s : State) (u : Nat) (t : Bool × Option Nat)
    (hT : s.throttleEntry u = some t) (hD : s.sendDelayed u = true) :
    throttleFire s u = send (clearWindow s u) u t.1 t.2 := by
  unfold throttleFire clearWindow
  rw [hT]
  simp only [Option.getD_some]
  rw [if_pos hD]

/-!  ## C2: close cancels timers; sends after close  -/

/-- C2 counterexample: after `close()` on a fresh instance, a send request
for universe 0 starts a new refresh interval and a new throttle timer (both
live) before the transport send throws — the claim says no new refresh
interval or throttle timer is started for that universe. -/
theorem C2_counterexample :
    (send (close init) 0 false none).1.intervalLive 0 = true ∧
    (send (close init) 0 false none).1.throttleLive 0 = true ∧
    (send (close init) 0 false none).2 = [Event.sendThrow 0] := by
  decide

/-- C2 (amended): `close()` unconditionally cancels every outstanding
refresh and throttle timer of every universe — whatever timers the state
holds, no live timer survives `close` — and closes the socket; but a later
send request is not guarded: for a universe with no interval entry and no
throttle entry it arms a brand-new (live) refresh interval and throttle
timer and only then reaches the closed socket, whose send throws. -/
theorem C2_close_cancels (s : State) (u : Nat) (r : Bool) (c : Option Nat) :
    (∀ v, (close s).intervalLive v = false) ∧
    (∀ v, (close s).throttleLive v = false) ∧
    (close s).closed = true ∧
    (s.intervalEntry u = false → s.throttleEntry u = none →
      (send (close s) u r c).1.intervalLive u = true ∧
      (send (close s) u r c).1.throttleLive u = true ∧
      (send (close s) u r c).2 = [Event.sendThrow u]) := by
  refine ⟨fun _ => rfl, fun _ => rfl, rfl, ?_⟩
  intro h1 h2
  have hopen := send_open_spec (close s) u r c h2
  refine ⟨hopen.2.2.2.2.2.1 h1, hopen.2.2.1, ?_⟩
  rw [hopen.2.2.2.2.2.2]
  rfl

/-- Witness for C2 (amended) at a state that actually holds outstanding
live timers: after one send, universe 0 has a live refresh interval and a
live throttle timer, `close` cancels both, and a post-close send for the
untouched universe 1 re-arms timers before the transport throws. -/
theorem C2_close_cancels_witness :
    ((send init 0 false none).1.intervalLive 0 = true ∧
      (send init 0 false none).1.throttleLive 0 = true) ∧
    ((∀ v, (close (send init 0 false none).1).intervalLive v = false) ∧
      (∀ v, (close (send init 0 false none).1).throttleLive v = false) ∧
      (close (send init 0 false none).1).closed = true ∧
      ((send init 0 false none).1.intervalEntry 1 = false →
        (send init 0 false none).1.throttleEntry 1 = none →
        (send (close (send init 0 false none).1) 1 true (some 7)).1.intervalLive 1 = true ∧
        (send (close (send init 0 false none).1) 1 true (some 7)).1.throttleLive 1 = true ∧
        (send (close (send init 0 false none).1) 1 true (some 7)).2 = [Event.sendThrow 1])) ∧
    ((send init 0 false none).1.intervalEntry 1 = false ∧
      (send init 0 false none).1.throttleEntry 1 = none ∧
      (send (close (send init 0 false none).1) 1 true (some 7)).2 = [Event.sendThrow 1]) :=
  ⟨⟨by decide, by decide⟩, C2_close_cancels (send init 0 false none).1 1 true (some 7),
    by decide, by decide,
    (C2_close_cancels (send init 0 false none).1 1 true (some 7)).2.2.2
      (by decide) (by decide) |>.2.2⟩

/-!  ## C3: throttle window coalescing  -/

/-- C3: when a send opens a universe's 25 ms throttle window it transmits
exactly one frame with its own callback; every further send request for
that universe while the window is open transmits nothing and is only
recorded in the delayed flag; the captured parameters stay those of the
opening call (the coalesced calls' refresh flags and handlers appear
nowhere); and when the window timer fires, the single replayed send is a
`send` with exactly the opening call's refresh flag (after the sendAll
override) and completion handler, which transmits one frame carrying that
handler. -/
theorem C3_throttle_window (s : State) (u : Nat) (r1 : Bool) (c1 : Option Nat)
    (L : List (Bool × Option Nat)) (hcl : s.closed = false)
    (hTh : s.throttleEntry u = none) (hL : L ≠ []) :
    (∃ f1, (send s u r1 c1).2 = [Event.sent u f1 c1]) ∧
    (runSends (send s u r1 c1).1 u L).2 = [] ∧
    ((runSends (send s u r1 c1).1 u L).1).sendDelayed u = true ∧
    ((runSends (send s u r1 c1).1 u L).1).throttleEntry u =
      some (if s.sendAll then true else r1, c1) ∧
    throttleFire ((runSends (send s u r1 c1).1 u L).1) u =
      send (clearWindow ((runSends (send s u r1 c1).1 u L).1) u) u
        (if s.sendAll then true else r1) c1 ∧
    (∃ f3, (throttleFire ((runSends (send s u r1 c1).1 u L).1) u).2 =
      [Event.sent u f3 c1]) := by
  obtain ⟨hE, hI, hTL, hC, hDC, hIL, hEv⟩ := send_open_spec s u r1 c1 hTh
  have hwin := runSends_inWindow u (if s.sendAll then true else r1, c1) L
    (send s u r1 c1).1 hI hE
  have hth2 : ((runSends (send s u r1 c1).1 u L).1).throttleEntry u =
      some (if s.sendAll then true else r1, c1) := by
    rw [hwin.2.1]; exact hE
  have hdel : ((runSends (send s u r1 c1).1 u L).1).sendDelayed u = true := by
    rw [hwin.2.2.2.2.2]
    simp [List.isEmpty_iff, hL]
  have hfire := throttleFire_delayed ((runSends (send s u r1 c1).1 u L).1) u
    (if s.sendAll then true else r1, c1) hth2 hdel
  refine ⟨⟨_, by rw [hEv, hcl]; rfl⟩, hwin.1, hdel, hth2, hfire, ?_⟩
  -- the replayed send opens a fresh window on a still-open socket
  have hclear_th : ((clearWindow ((runSends (send s u r1 c1).1 u L).1) u)).throttleEntry u =
      none := by
    unfold clearWindow
    simp
  obtain ⟨_, _, _, _, _, _, hEv3⟩ := send_open_spec
    (clearWindow ((runSends (send s u r1 c1).1 u L).1) u) u
    (if s.sendAll then true else r1) c1 hclear_th
  have hcl3 : ((clearWindow ((runSends (send s u r1 c1).1 u L).1) u)).closed = false := by
    unfold clearWindow
    show ((runSends (send s u r1 c1).1 u L).1).closed = false
    rw [hwin.2.2.2.1, hC]
    exact hcl
  rw [hfire]
  rw [hEv3, hcl3]
  exact ⟨_, rfl⟩

/-- Witness for C3: default instance, universe 0, an opening send with
callback 1 and one coalesced send with refresh flag true and callback 2. -/
theorem C3_throttle_window_witness :
    init.closed = false ∧ init.throttleEntry 0 = none ∧
    ((∃ f1, (send init 0 false (some 1)).2 = [Event.sent 0 f1 (some 1)]) ∧
      (runSends (send init 0 false (some 1)).1 0 [(true, some 2)]).2 = [] ∧
      ((runSends (send init 0 false (some 1)).1 0 [(true, some 2)]).1).sendDelayed 0 = true ∧
      ((runSends (send init 0 false (some 1)).1 0 [(true, some 2)]).1).throttleEntry 0 =
        some (if init.sendAll then true else false, some 1) ∧
      throttleFire ((runSends (send init 0 false (some 1)).1 0 [(true, some 2)]).1) 0 =
        send (clearWindow ((runSends (send init 0 false (some 1)).1 0 [(true, some 2)]).1) 0) 0
          (if init.sendAll then true else false) (some 1) ∧
      (∃ f3, (throttleFire ((runSends (send init 0 false (some 1)).1 0 [(true, some 2)]).1) 0).2 =
        [Event.sent 0 f3 (some 1)])) :=
  ⟨rfl, rfl, C3_throttle_window init 0 false (some 1) [(true, some 2)] rfl rfl (by simp)⟩

/-!  ## C4: transmitted payload length  -/

/-- C4 counterexample: write value 5 to channel 3 of universe 0 while the
throttle window is open (so DirtyLength stays 3), then let the window timer
fire: the replayed send has refresh = false and DirtyLength = 3, yet the
transmitted frame carries a 4-byte payload `[0, 0, 5, 0]` (22 bytes in all,
length field `0x00, 0x04`), not the 3 bytes the claim promises. -/
theorem C4_counterexample :
    ((set (send init 0 false none).1 0 3 [5] none).1).dataChanged 0 = some 3 ∧
    ((set (send init 0 false none).1 0 3 [5] none).1).throttleEntry 0 =
      some (false, none) ∧
    (throttleFire ((set (send init 0 false none).1 0 3 [5] none).1) 0).2 =
      [Event.sent 0
        [65, 114, 116, 45, 78, 101, 116, 0, 0, 80, 0, 14, 0, 0, 0, 0, 0, 4, 0, 0, 5, 0] none] ∧
    ([65, 114, 116, 45, 78, 101, 116, 0, 0, 80, 0, 14, 0, 0, 0, 0, 0, 4, 0, 0, 5, 0] :
      List Nat).length = 18 + 4 ∧
    ¬ (([65, 114, 116, 45, 78, 101, 116, 0, 0, 80, 0, 14, 0, 0, 0, 0, 0, 4, 0, 0, 5, 0] :
      List Nat).length = 18 + 3) := by
  decide

/-- C4 (amended): every send that transmits determines its payload length as
512 when the (sendAll-overridden) refresh flag is set, otherwise the
universe's DirtyLength, and 512 when DirtyLength is zero or unset; the
transmitted frame then carries that length rounded up to the next even
number (so an odd DirtyLength yields one extra byte).  A universe with no
prior channel writes transmits a full 512-byte payload, a frame never has an
empty payload, and DirtyLength is reset to 0. -/
theorem C4_payload (s : State) (u : Nat) (r : Bool) (c : Option Nat)
    (hTh : s.throttleEntry u = none) (hcl : s.closed = false)
    (hb : ∀ b, s.data u = some b → 512 ≤ b.length)
    (hdc : (s.dataChanged u).getD 0 ≤ 512) :
    ∃ frame,
      (send s u r c).2 = [Event.sent u frame c] ∧
      frame.length = 18 + evenLen (payloadLength s u (if s.sendAll then true else r)) ∧
      ((if s.sendAll then true else r) = true → payloadLength s u true = 512) ∧
      (∀ n, s.dataChanged u = some n → 0 < n → payloadLength s u false = n) ∧
      ((s.dataChanged u).getD 0 = 0 → payloadLength s u false = 512) ∧
      (s.data u = none → s.dataChanged u = none → frame.length = 18 + 512) ∧
      20 ≤ frame.length ∧
      (send s u r c).1.dataChanged u = some 0 := by
  obtain ⟨hE, hI, hTL, hC, hDC, hIL, hEv⟩ := send_open_spec s u r c hTh
  rw [hcl] at hEv
  simp only [Bool.false_eq_true, if_false] at hEv
  have hple : payloadLength s u (if s.sendAll then true else r) ≤ 512 :=
    payloadLength_le s u _ hdc
  have hlen := artdmxPackage_length
    { s with
      closed := false
      throttleEntry := fun v =>
        if v = u then some (if s.sendAll then true else r, c) else s.throttleEntry v
      throttleLive := fun v => if v = u then true else s.throttleLive v }
    u (payloadLength s u (if s.sendAll then true else r))
    (evenLen_le_512 _ hple) hb
  refine ⟨_, hEv, hlen, ?_, ?_, ?_, ?_, ?_, hDC⟩
  · intro _
    simp [payloadLength]
  · intro n hn hpos
    simp [payloadLength, hn, hpos]
  · intro h0
    unfold payloadLength
    cases hd : s.dataChanged u with
    | none => simp
    | some n =>
        rw [hd] at h0
        simp only [Option.getD_some] at h0
        simp [h0]
  · intro hdata hnone
    have hall : ∀ x : Bool, payloadLength s u x = 512 := by
      intro x
      unfold payloadLength
      rw [hnone]
      cases x <;> simp
    rw [hlen, hall]
    decide
  · have h1 : 1 ≤ payloadLength s u (if s.sendAll then true else r) :=
      payloadLength_pos s u _
    have h2 := evenLen_ge_two _ h1
    omega

/-- Witness for C4 (amended) at a fresh default instance: the very first
send for universe 0 transmits a full 530-byte frame (512-byte payload). -/
theorem C4_payload_witness :
    init.throttleEntry 0 = none ∧ init.closed = false ∧
    (∃ frame,
      (send init 0 false none).2 = [Event.sent 0 frame none] ∧
      frame.length = 18 + evenLen (payloadLength init 0 (if init.sendAll then true else false)) ∧
      ((if init.sendAll then true else false) = true → payloadLength init 0 true = 512) ∧
      (∀ n, init.dataChanged 0 = some n → 0 < n → payloadLength init 0 false = n) ∧
      ((init.dataChanged 0).getD 0 = 0 → payloadLength init 0 false = 512) ∧
      (init.data 0 = none → init.dataChanged 0 = none → frame.length = 18 + 512) ∧
      20 ≤ frame.length ∧
      (send init 0 false none).1.dataChanged 0 = some 0) :=
  ⟨rfl, rfl, C4_payload init 0 false none rfl rfl (fun b h => nomatch h) (by decide)⟩

/-!  ## C5: value-equality gate of set  -/

theorem readAt_writeAt_self : ∀ (buf : List Slot) (i v : Nat),
    readAt (writeAt buf i v) i = some v
  | [], 0, _ => rfl
  | [], i + 1, v => readAt_writeAt_self [] i v
  | _ :: _, 0, _ => rfl
  | _ :: xs, i + 1, v => readAt_writeAt_self xs i v

theorem readAt_writeAt_ne : ∀ (buf : List Slot) (i v j : Nat), j ≠ i →
    readAt (writeAt buf i v) j = readAt buf j
  | [], 0, _, 0, h => absurd rfl h
  | [], 0, _, _ + 1, _ => rfl
  | [], _ + 1, _, 0, _ => rfl
  | [], i + 1, v, j + 1, h => by
      show readAt (writeAt [] i v) j = readAt ([] : List Slot) j
      rw [readAt_writeAt_ne [] i v j (fun hji => h (by rw [hji]))]
  | _ :: _, 0, _, 0, h => absurd rfl h
  | _ :: _, 0, _, _ + 1, _ => rfl
  | _ :: _, _ + 1, _, 0, _ => rfl
  | _ :: xs, i + 1, v, j + 1, h =>
      readAt_writeAt_ne xs i v j (fun hji => h (by rw [hji]))

theorem changedBound_writeAt (ch : Nat) (hch : 1 ≤ ch) (i v' : Nat) (buf : List Slot) :
    ∀ (rest : List Nat) (j : Nat), i < j →
      changedBound (writeAt buf (ch + i - 1) v') ch j rest = changedBound buf ch j rest
  | [], _, _ => rfl
  | w :: rest, j, hj => by
      unfold changedBound
      dsimp only
      rw [readAt_writeAt_ne buf (ch + i - 1) v' (ch + j - 1) (by omega)]
      rw [changedBound_writeAt ch hch i v' buf rest (j + 1) (by omega)]

theorem setLoop_snd (ch : Nat) (hch : 1 ≤ ch) :
    ∀ (vals : List Nat) (buf : List Slot) (dc i : Nat),
      (setLoop buf dc ch i vals).2 = max dc (changedBound buf ch i vals)
  | [], _, _, _ => by simp [setLoop, changedBound]
  | v :: rest, buf, dc, i => by
      unfold setLoop changedBound
      by_cases h : readAt buf (ch + i - 1) = some v
      · rw [if_pos h, if_pos h, setLoop_snd ch hch rest buf dc (i + 1)]
      · rw [if_neg h, if_neg h,
          setLoop_snd ch hch rest (writeAt buf (ch + i - 1) v) _ (i + 1),
          changedBound_writeAt ch hch i v buf rest (i + 1) (by omega)]
        have hmax : (if ch + i - 1 + 1 > dc then ch + i - 1 + 1 else dc) =
            max dc (ch + i - 1 + 1) := by
          split <;> omega
        rw [hmax]
        omega

theorem setLoop_nochange (ch : Nat) :
    ∀ (vals : List Nat) (buf : List Slot) (dc i : Nat),
      changedBound buf ch i vals = 0 → setLoop buf dc ch i vals = (buf, dc)
  | [], _, _, _, _ => rfl
  | v :: rest, buf, dc, i, h => by
      unfold changedBound at h
      unfold setLoop
      by_cases hr : readAt buf (ch + i - 1) = some v
      · rw [if_pos hr]
        exact setLoop_nochange ch rest buf dc (i + 1) (by rwa [if_pos hr] at h)
      · rw [if_neg hr] at h
        have := Nat.le_max_left (ch + i - 1 + 1) (changedBound buf ch (i + 1) rest)
        omega

theorem readAt_setLoop_single (buf : List Slot) (dc ch v : Nat) :
    readAt (setLoop buf dc ch 0 [v]).1 (ch + 0 - 1) = some v := by
  unfold setLoop
  by_cases h : readAt buf (ch + 0 - 1) = some v
  · rw [if_pos h]
    simpa [setLoop] using h
  · rw [if_neg h]
    simp [setLoop, readAt_writeAt_self]

theorem set_result (s : State) (u ch : Nat) (vals : List Nat) (cb : Option Nat) :
    ∃ st : State,
      st.data u = some (setLoop ((s.data u).getD (List.replicate 512 (some 0)))
          ((s.dataChanged u).getD 0) ch 0 vals).1 ∧
      st.dataChanged u = some (setLoop ((s.data u).getD (List.replicate 512 (some 0)))
          ((s.dataChanged u).getD 0) ch 0 vals).2 ∧
      st.throttleEntry = s.throttleEntry ∧
      ((setLoop ((s.data u).getD (List.replicate 512 (some 0)))
          ((s.dataChanged u).getD 0) ch 0 vals).2 ≠ 0 →
        set s u ch vals cb = send st u false cb) ∧
      ((setLoop ((s.data u).getD (List.replicate 512 (some 0)))
          ((s.dataChanged u).getD 0) ch 0 vals).2 = 0 →
        (set s u ch vals cb).1 = st) := by
  refine ⟨{ s with
    data := fun w => if w = u then
      some (setLoop ((s.data u).getD (List.replicate 512 (some 0)))
        ((s.dataChanged u).getD 0) ch 0 vals).1 else s.data w
    dataChanged := fun w => if w = u then
      some (setLoop ((s.data u).getD (List.replicate 512 (some 0)))
        ((s.dataChanged u).getD 0) ch 0 vals).2 else s.dataChanged w },
    by simp, by simp, rfl, ?_, ?_⟩
  · intro h
    unfold set
    rw [if_pos h]
  · intro h
    unfold set
    rw [if_neg (by simpa using h)]
    cases cb <;> simp

theorem set_spec (s : State) (u ch v : Nat) (cb : Option Nat) :
    ∃ m buf,
      (set s u ch [v] cb).1.data u = some buf ∧
      readAt buf (ch + 0 - 1) = some v ∧
      (set s u ch [v] cb).1.dataChanged u = some m ∧
      (m ≠ 0 → ((set s u ch [v] cb).1.throttleEntry u).isSome = true) := by
  obtain ⟨st, hd, hm, hte, hsend, hnosend⟩ := set_result s u ch [v] cb
  have hread := readAt_setLoop_single ((s.data u).getD (List.replicate 512 (some 0)))
    ((s.dataChanged u).getD 0) ch v
  by_cases h2 : (setLoop ((s.data u).getD (List.replicate 512 (some 0)))
      ((s.dataChanged u).getD 0) ch 0 [v]).2 = 0
  · refine ⟨0, _, ?_, hread, ?_, fun hfalse => absurd rfl hfalse⟩
    · rw [hnosend h2]
      exact hd
    · rw [hnosend h2, hm, h2]
  · rw [hsend h2]
    cases hTh : st.throttleEntry u with
    | some t =>
        refine ⟨(setLoop ((s.data u).getD (List.replicate 512 (some 0)))
            ((s.dataChanged u).getD 0) ch 0 [v]).2, _, ?_, hread, ?_, ?_⟩
        · rw [send_data_of_isSome st u false cb (by rw [hd]; rfl)]
          exact hd
        · rw [send_dataChanged_of_throttled st u false cb t hTh]
          exact hm
        · intro _
          exact send_throttle_isSome st u false cb
    | none =>
        refine ⟨0, _, ?_, hread, ?_, ?_⟩
        · rw [send_data_of_isSome st u false cb (by rw [hd]; rfl)]
          exact hd
        · exact (send_open_spec st u false cb hTh).2.2.2.2.1
        · intro _
          exact send_throttle_isSome st u false cb

theorem set_second (s : State) (u ch v : Nat) (cb : Option Nat) :
    ((set ((set s u ch [v] cb).1) u ch [v] cb).1).dataChanged u =
      ((set s u ch [v] cb).1).dataChanged u := by
  obtain ⟨m, buf, hdata, hread, hdc, hth⟩ := set_spec s u ch v cb
  have hloop : setLoop (((set s u ch [v] cb).1.data u).getD (List.replicate 512 (some 0)))
      (((set s u ch [v] cb).1.dataChanged u).getD 0) ch 0 [v] =
      (((set s u ch [v] cb).1.data u).getD (List.replicate 512 (some 0)),
        ((set s u ch [v] cb).1.dataChanged u).getD 0) := by
    apply setLoop_nochange
    rw [hdata]
    have hread' : readAt buf (ch - 1) = some v := by simpa using hread
    simp [changedBound, hread']
  obtain ⟨st2, hd2, hm2, hte2, hsend2, hnosend2⟩ :=
    set_result ((set s u ch [v] cb).1) u ch [v] cb
  rw [hloop] at hd2 hm2 hsend2 hnosend2
  dsimp only at hd2 hm2 hsend2 hnosend2
  have hgetd : (((set s u ch [v] cb).1).dataChanged u).getD 0 = m := by rw [hdc]; rfl
  by_cases hz : m = 0
  · rw [hnosend2 (by rw [hgetd]; exact hz), hm2, hdc]
    simp
  · have hsome := hth hz
    obtain ⟨t, ht⟩ := Option.isSome_iff_exists.mp hsome
    have htt2 : st2.throttleEntry u = some t := by rw [hte2]; exact ht
    rw [hsend2 (by rw [hgetd]; exact hz),
      send_dataChanged_of_throttled st2 u false cb t htt2, hm2, hdc]
    simp

/-- C5: the update loop of `set` raises DirtyLength exactly to the maximum
of its current value and the highest changed index + 1, where an index
counts as changed only when the incoming value differs from the stored one
(`changedBound` is by construction that quantity, and is 0 when no value
differs — in which case buffer and DirtyLength are left untouched); and at
the level of the whole `set` operation, calling `set` twice in a row with
the same value for the same channel of the same universe leaves DirtyLength
unchanged after the second call. -/
theorem C5_change_gate (s : State) (u ch v : Nat) (cb : Option Nat) (vals : List Nat)
    (buf : List Slot) (dc : Nat) (hch : 1 ≤ ch) :
    (setLoop buf dc ch 0 vals).2 = max dc (changedBound buf ch 0 vals) ∧
    (changedBound buf ch 0 vals = 0 → setLoop buf dc ch 0 vals = (buf, dc)) ∧
    ((set ((set s u ch [v] cb).1) u ch [v] cb).1).dataChanged u =
      ((set s u ch [v] cb).1).dataChanged u :=
  ⟨setLoop_snd ch hch vals buf dc 0, setLoop_nochange ch vals buf dc 0,
    set_second s u ch v cb⟩

/-- Witness for C5 at channel 1 with an empty buffer and a fresh default
instance. -/
theorem C5_change_gate_witness :
    (1 : Nat) ≤ 1 ∧
    ((setLoop [] 0 1 0 [7]).2 = max 0 (changedBound [] 1 0 [7]) ∧
      (changedBound [] 1 0 [7] = 0 → setLoop [] 0 1 0 [7] = ([], 0)) ∧
      ((set ((set init 0 1 [7] (some 1)).1) 0 1 [7] (some 1)).1).dataChanged 0 =
        ((set init 0 1 [7] (some 1)).1).dataChanged 0) :=
  ⟨by decide, C5_change_gate init 0 1 7 (some 1) [7] [] 0 (by decide)⟩

end ArtnetProto
